import Mathlib

/-!
Shallow embedding of the two core components of the design-patterns
repository:

* `src/patterns/command.py` — the Command pattern demo (`AbsCommand`,
  `NullCommand`, `LightOnCommand`, `LightOffCommand`, `MacroCommand`,
  `RemoteControl`), here called the CommandRegistry in the spec.
* `src/patterns/state.py` — the State pattern demo (`GumballMachine` with
  its five state classes), here called the StateMachine in the spec.

Commands are embedded as an inductive syntax tree; executing a command
yields the list of strings the receivers print (the trace of command
effects).  The invoker's own constant banner prints ("Clicking slot ...",
"Undoing...") carry no command information and are not part of the
command-effect trace.  Python exceptions (`assert` failures in
`set_command`, `IndexError` from list indexing in `click_on`/`click_off`)
are modelled with `Except`; Python's negative-index semantics of list
subscription is modelled faithfully by `pyIdx`.
-/

/-- The command hierarchy of command.py: `NullCommand`, `LightOnCommand`,
`LightOffCommand` (each holding a `Light` identified by its location
string), and `MacroCommand` over a list of sub-commands. -/
inductive AbsCommand where
  | nullCommand : AbsCommand
  | lightOn : String → AbsCommand
  | lightOff : String → AbsCommand
  | macroCommand : List AbsCommand → AbsCommand

mutual

/-- `execute`: the effect trace of running a command forward.
`Light.on` prints "<loc> light is on"; `Light.off` prints
"<loc> light  is off" (the double space is in the source);
`MacroCommand.execute` runs the sub-commands in list order. -/
def execute : AbsCommand → List String
  | .nullCommand => []
  | .lightOn loc => [loc ++ " light is on"]
  | .lightOff loc => [loc ++ " light  is off"]
  | .macroCommand cmds => executeList cmds

/-- Trace of executing a list of commands in order (loop body of
`MacroCommand.execute`). -/
def executeList : List AbsCommand → List String
  | [] => []
  | c :: cs => execute c ++ executeList cs

end

mutual

/-- `unexecute`: the effect trace of a command's inverse.
`LightOnCommand.unexecute` turns the light off and vice versa;
`MacroCommand.unexecute` runs the sub-commands' inverses in the SAME
list order (the source loops forward, not in reverse). -/
def unexecute : AbsCommand → List String
  | .nullCommand => []
  | .lightOn loc => [loc ++ " light  is off"]
  | .lightOff loc => [loc ++ " light is on"]
  | .macroCommand cmds => unexecuteList cmds

/-- Trace of unexecuting a list of commands in order (loop body of
`MacroCommand.unexecute`). -/
def unexecuteList : List AbsCommand → List String
  | [] => []
  | c :: cs => unexecute c ++ unexecuteList cs

end

/-- The two Python exception kinds this component can raise:
`AssertionError` from the `assert` in `set_command`, and `IndexError`
from out-of-range list subscription in `click_on`/`click_off`. -/
inductive CmdError where
  | assertionError : CmdError
  | indexError : CmdError
deriving DecidableEq

/-- `RemoteControl.__init__` state: the on-command list, the off-command
list, and the last executed command. -/
structure RemoteControl where
  on_cmds : List AbsCommand
  off_cmds : List AbsCommand
  last_cmd : AbsCommand

/-- `RemoteControl(n_slots)`: both command lists initialized to
`NullCommand`s, `last_cmd` initialized to a `NullCommand`. -/
def RemoteControl.init (n_slots : Nat) : RemoteControl :=
  { on_cmds := List.replicate n_slots .nullCommand,
    off_cmds := List.replicate n_slots .nullCommand,
    last_cmd := .nullCommand }

/-- Python list subscription index resolution for a list of length `n`:
a non-negative index `i` is valid iff `i < n`; a negative index `i` is
interpreted as `i + n` and is valid iff `0 ≤ i + n`.  Returns the
resolved non-negative position, or `none` for an `IndexError`. -/
def pyIdx (n : Nat) (i : Int) : Option Nat :=
  if 0 ≤ i then (if i.toNat < n then some i.toNat else none)
  else (if 0 ≤ i + n then some (i + n).toNat else none)

/-- Python `l[i]` (read) with Python index semantics. -/
def pyGet {α : Type} (l : List α) (i : Int) : Except CmdError α :=
  match pyIdx l.length i with
  | some j =>
    match l[j]? with
    | some a => .ok a
    | none => .error .indexError
  | none => .error .indexError

/-- Python `l[i] = a` (write) with Python index semantics. -/
def pySet {α : Type} (l : List α) (i : Int) (a : α) : Except CmdError (List α) :=
  match pyIdx l.length i with
  | some j => .ok (l.set j a)
  | none => .error .indexError

/-- `RemoteControl.set_command(idx, on_cmd, off_cmd)`: asserts
`0 <= idx < len(self.__on_cmds)` (an `AssertionError` on failure), then
stores the two commands at slot `idx`. -/
def RemoteControl.set_command (rc : RemoteControl) (idx : Int)
    (on_cmd off_cmd : AbsCommand) : Except CmdError RemoteControl :=
  if 0 ≤ idx ∧ idx < (rc.on_cmds.length : Int) then
    match pySet rc.on_cmds idx on_cmd with
    | .error e => .error e
    | .ok ons =>
      match pySet rc.off_cmds idx off_cmd with
      | .error e => .error e
      | .ok offs => .ok { rc with on_cmds := ons, off_cmds := offs }
  else .error .assertionError

/-- `RemoteControl.click_on(idx)`: executes `self.__on_cmds[idx]` and
records it as the last command.  There is NO bounds assert here: the
only failure is the `IndexError` of the subscription itself, and a
negative index within `[-n, 0)` silently resolves to a slot. -/
def RemoteControl.click_on (rc : RemoteControl) (idx : Int) :
    Except CmdError (RemoteControl × List String) :=
  match pyGet rc.on_cmds idx with
  | .error e => .error e
  | .ok cmd => .ok ({ rc with last_cmd := cmd }, execute cmd)

/-- `RemoteControl.click_off(idx)`: same as `click_on` on the off-command
list. -/
def RemoteControl.click_off (rc : RemoteControl) (idx : Int) :
    Except CmdError (RemoteControl × List String) :=
  match pyGet rc.off_cmds idx with
  | .error e => .error e
  | .ok cmd => .ok ({ rc with last_cmd := cmd }, execute cmd)

/-- `RemoteControl.undo()`: unexecutes the last command.  Total — it can
never raise. -/
def RemoteControl.undo (rc : RemoteControl) : RemoteControl × List String :=
  (rc, unexecute rc.last_cmd)

/-!
Embedding of state.py: `GumballMachine` and its five state classes
(`SoldOutState`, `NoQuarterState`, `HasQuarterState`, `SoldState`,
`WinnerState`).  The machine's observable data is the gumball count (a
Python int, so modelled as `Int`) and the current state.  Each public
operation returns the new machine together with the list of strings it
prints.  The random draw of `HasQuarterState.turn_crank`
(`np.random.randint(10)`) is modelled as an explicit oracle argument.
-/

/-- The five behaviour modes of the machine, one per state class. -/
inductive GumballState where
  | soldOut : GumballState
  | noQuarter : GumballState
  | hasQuarter : GumballState
  | sold : GumballState
  | winner : GumballState
deriving DecidableEq

/-- The machine: gumball count and current state. -/
structure GumballMachine where
  count : Int
  state : GumballState
deriving DecidableEq

/-- `GumballMachine(num_gumball)`: stores the count unchecked; starts in
`NoQuarterState` when the count is positive, else `SoldOutState`. -/
def GumballMachine.init (num_gumball : Int) : GumballMachine :=
  { count := num_gumball,
    state := if num_gumball > 0 then .noQuarter else .soldOut }

/-- `GumballMachine.release_ball()`: always prints, and decrements the
count only when it is positive. -/
def GumballMachine.release_ball (m : GumballMachine) :
    GumballMachine × List String :=
  ({ m with count := if m.count > 0 then m.count - 1 else m.count },
   ["A gumball comes rolling out the slot..."])

/-- `insert_quarter`, dispatched to the current state class. -/
def GumballMachine.insert_quarter (m : GumballMachine) :
    GumballMachine × List String :=
  match m.state with
  | .noQuarter =>
    ({ m with state := .hasQuarter }, ["You inserted a quarter"])
  | .hasQuarter =>
    (m, ["There is already a quarter. You cannot insert another"])
  | .soldOut =>
    (m, ["You cannot insert a quarter, the machine is sold out."])
  | .sold => (m, ["Please wait, we are already giving you a gumball"])
  | .winner => (m, ["Please wait, we are already giving you a gumball"])

/-- `eject_quarter`, dispatched to the current state class. -/
def GumballMachine.eject_quarter (m : GumballMachine) :
    GumballMachine × List String :=
  match m.state with
  | .hasQuarter => ({ m with state := .noQuarter }, ["Quarter returned"])
  | .noQuarter => (m, ["You have not inserted a quarter"])
  | .soldOut =>
    (m, ["You cannot eject, you have not inserted a quarter yet."])
  | .sold => (m, ["Sorry, you already turned the crank"])
  | .winner => (m, ["Sorry, you already turned the crank"])

/-- The crank phase of `turn_crank`, dispatched to the current state
class.  From `HasQuarterState`: draws `draw` (the oracle for
`np.random.randint(10)`) and moves to `WinnerState` when `draw == 0`
and the count exceeds 1, else to `SoldState`.  All other states only
print. -/
def GumballMachine.turn_crank_state (m : GumballMachine) (draw : Nat) :
    GumballMachine × List String :=
  match m.state with
  | .hasQuarter =>
    ({ m with state := if draw = 0 ∧ m.count > 1 then .winner else .sold },
     ["You turned..."])
  | .noQuarter => (m, ["You turned, but there is no quarter"])
  | .soldOut => (m, ["You turned, but there are no gumballs"])
  | .sold => (m, ["Turning twice does not give you another gumball"])
  | .winner => (m, ["Turning twice does not give you another gumball"])

/-- The dispense phase, dispatched to the current state class.
`SoldState.dispense`: one `release_ball`, then `NoQuarterState` if
gumballs remain, else `SoldOutState`.  `WinnerState.dispense`: one
`release_ball`; if the count is now 0, `SoldOutState`; otherwise a
second `release_ball`, the winner message, then `NoQuarterState` if
gumballs remain, else `SoldOutState`.  The other three states only
print. -/
def GumballMachine.dispense (m : GumballMachine) :
    GumballMachine × List String :=
  match m.state with
  | .sold =>
    let p := m.release_ball
    if p.1.count > 0 then ({ p.1 with state := .noQuarter }, p.2)
    else ({ p.1 with state := .soldOut }, p.2 ++ ["Oops, out of gumball"])
  | .winner =>
    let p := m.release_ball
    if p.1.count = 0 then ({ p.1 with state := .soldOut }, p.2)
    else
      let q := p.1.release_ball
      if q.1.count > 0 then
        ({ q.1 with state := .noQuarter },
         p.2 ++ q.2 ++
           ["You are a winner. You got two gumballs for your quarter"])
      else
        ({ q.1 with state := .soldOut },
         p.2 ++ q.2 ++
           ["You are a winner. You got two gumballs for your quarter",
            "Oops, out of gumball"])
  | .noQuarter => (m, ["You need to pay first"])
  | .hasQuarter => (m, ["No gumball dispensed"])
  | .soldOut => (m, ["No gumball dispensed"])

/-- `GumballMachine.turn_crank()`: the crank phase immediately followed
by the dispense phase on whatever state the crank produced. -/
def GumballMachine.turn_crank (m : GumballMachine) (draw : Nat) :
    GumballMachine × List String :=
  let p := m.turn_crank_state draw
  let q := p.1.dispense
  (q.1, p.2 ++ q.2)

/-- The public event alphabet of the machine (`turnCrank` carries the
random-draw oracle). -/
inductive MEvent where
  | insertQuarter : MEvent
  | ejectQuarter : MEvent
  | turnCrank : Nat → MEvent

/-- One public operation. -/
def GumballMachine.step (m : GumballMachine) : MEvent → GumballMachine × List String
  | .insertQuarter => m.insert_quarter
  | .ejectQuarter => m.eject_quarter
  | .turnCrank draw => m.turn_crank draw

/-- Run a sequence of public operations, keeping only the machine. -/
def GumballMachine.run (m : GumballMachine) : List MEvent → GumballMachine
  | [] => m
  | e :: es => ((m.step e).1).run es

/-- Invariant of machines reachable by public operations from a
construction with non-negative inventory: the count is non-negative,
the machine rests in `SoldOutState` exactly when the count is 0, and
the resting state is never the transient `SoldState`/`WinnerState`. -/
def GumballInv (m : GumballMachine) : Prop :=
  0 ≤ m.count ∧ (m.state = .soldOut ↔ m.count = 0) ∧
    (m.state = .soldOut ∨ m.state = .noQuarter ∨ m.state = .hasQuarter)

lemma gumballInv_init (n : Int) (hn : 0 ≤ n) :
    GumballInv (GumballMachine.init n) := by
  unfold GumballInv GumballMachine.init
  by_cases h : n > 0 <;> simp [h] <;> omega

lemma gumballInv_step (m : GumballMachine) (e : MEvent) (h : GumballInv m) :
    GumballInv (m.step e).1 := by
  obtain ⟨c, s⟩ := m
  obtain ⟨h1, h2, h3⟩ := h
  simp only [GumballInv] at *
  cases e with
  | insertQuarter =>
    cases s <;>
      simp_all [GumballMachine.step, GumballMachine.insert_quarter]
  | ejectQuarter =>
    cases s <;>
      simp_all [GumballMachine.step, GumballMachine.eject_quarter]
  | turnCrank draw =>
    cases s <;>
      simp_all [GumballMachine.step, GumballMachine.turn_crank,
        GumballMachine.turn_crank_state, GumballMachine.dispense,
        GumballMachine.release_ball] <;>
      split_ifs <;> simp_all <;> omega

lemma gumballInv_run (m : GumballMachine) (es : List MEvent)
    (h : GumballInv m) : GumballInv (m.run es) := by
  induction es generalizing m with
  | nil => simpa [GumballMachine.run] using h
  | cons e es ih =>
    simp only [GumballMachine.run]
    exact ih _ (gumballInv_step m e h)

/-- Claim C2: from any construction with non-negative inventory, after
any sequence of public operations the machine is in `SoldOutState` iff
its count is 0 and the count is never negative; moreover `SoldOutState`
is never produced by `insert_quarter`, `eject_quarter` or the crank
phase of `turn_crank` — only the dispense phase (or construction with
count 0) can enter it. -/
theorem gumball_soldout_iff_empty (n : Int) (hn : 0 ≤ n)
    (es : List MEvent) :
    (0 ≤ ((GumballMachine.init n).run es).count ∧
      (((GumballMachine.init n).run es).state = .soldOut ↔
        ((GumballMachine.init n).run es).count = 0)) ∧
    (∀ m : GumballMachine,
      ((m.insert_quarter).1.state = .soldOut → m.state = .soldOut) ∧
      ((m.eject_quarter).1.state = .soldOut → m.state = .soldOut) ∧
      (∀ draw : Nat,
        (m.turn_crank_state draw).1.state = .soldOut →
          m.state = .soldOut)) := by
  constructor
  · have h := gumballInv_run (GumballMachine.init n) es (gumballInv_init n hn)
    exact ⟨h.1, h.2.1⟩
  · intro m
    obtain ⟨c, s⟩ := m
    refine ⟨?_, ?_, ?_⟩
    · cases s <;> simp [GumballMachine.insert_quarter]
    · cases s <;> simp [GumballMachine.eject_quarter]
    · intro draw
      cases s <;> simp [GumballMachine.turn_crank_state] <;>
        split_ifs <;> simp

theorem gumball_soldout_iff_empty_witness :
    0 ≤ (2 : Int) ∧
    (0 ≤ ((GumballMachine.init 2).run
        [MEvent.insertQuarter, MEvent.turnCrank 0]).count ∧
      (((GumballMachine.init 2).run
          [MEvent.insertQuarter, MEvent.turnCrank 0]).state = .soldOut ↔
        ((GumballMachine.init 2).run
          [MEvent.insertQuarter, MEvent.turnCrank 0]).count = 0)) :=
  ⟨by decide,
   (gumball_soldout_iff_empty 2 (by decide)
     [MEvent.insertQuarter, MEvent.turnCrank 0]).1⟩

/-- Claim C4 counterexample: constructing with inventory -3 does not
fail with any error — the constructor performs no validation; it yields
a machine with the negative count stored as-is and state
`SoldOutState`. -/
theorem gumball_negative_init_succeeds :
    GumballMachine.init (-3) = { count := -3, state := .soldOut } ∧
    (GumballMachine.init (-3)).count < 0 := by
  constructor <;> decide

/-- Claim C4 amended: construction never fails for any integer
inventory (there is no negative-inventory check); the count is stored
unchecked, and the initial state is `NoQuarterState` iff the inventory
is positive, else `SoldOutState`. -/
theorem gumball_init_total_state (n : Int) :
    (GumballMachine.init n).count = n ∧
    ((GumballMachine.init n).state = .noQuarter ↔ 0 < n) ∧
    ((GumballMachine.init n).state = .soldOut ↔ n ≤ 0) := by
  unfold GumballMachine.init
  by_cases h : n > 0 <;> simp [h] <;> omega

/-- Claim C5: with inventory exactly 1 and a quarter inserted, a forced
winning draw (0) does NOT reach `WinnerState` (the guard requires count
> 1): the crank phase moves to `SoldState`, and the full `turn_crank`
ends with count 0 in `SoldOutState`. -/
theorem gumball_count_one_winning_draw :
    ((((GumballMachine.init 1).insert_quarter).1).turn_crank_state 0).1.state
        = .sold ∧
    ((((GumballMachine.init 1).insert_quarter).1).turn_crank 0).1 =
      { count := 0, state := .soldOut } := by
  constructor <;> decide

/-- Claim C6: with a quarter inserted and inventory at least 2, a forced
winning draw (0) moves the crank phase to `WinnerState`; the automatic
winner dispense decrements the count by exactly 2 and ends in
`NoQuarterState` if gumballs remain, else `SoldOutState`. -/
theorem gumball_winner_two_decrements (m : GumballMachine)
    (hs : m.state = .hasQuarter) (hc : 2 ≤ m.count) :
    (m.turn_crank_state 0).1.state = .winner ∧
    (m.turn_crank 0).1.count = m.count - 2 ∧
    (m.turn_crank 0).1.state =
      (if 0 < m.count - 2 then .noQuarter else .soldOut) := by
  obtain ⟨c, s⟩ := m
  simp only at hs hc
  subst hs
  simp only [GumballMachine.turn_crank, GumballMachine.turn_crank_state,
    GumballMachine.dispense, GumballMachine.release_ball]
  have hgt : c > 1 := by omega
  simp only [hgt, and_true, true_and, if_true, gt_iff_lt]
  split_ifs <;> simp_all <;> omega

theorem gumball_winner_two_decrements_witness :
    (({ count := 2, state := .hasQuarter } : GumballMachine).state
        = .hasQuarter ∧
      2 ≤ ({ count := 2, state := .hasQuarter } : GumballMachine).count) ∧
    ((({ count := 2, state := .hasQuarter } : GumballMachine).turn_crank_state 0).1.state
        = .winner ∧
      (({ count := 2, state := .hasQuarter } : GumballMachine).turn_crank 0).1.count
        = ({ count := 2, state := .hasQuarter } : GumballMachine).count - 2 ∧
      (({ count := 2, state := .hasQuarter } : GumballMachine).turn_crank 0).1.state
        = (if 0 < ({ count := 2, state := .hasQuarter } : GumballMachine).count - 2
            then .noQuarter else .soldOut)) :=
  ⟨⟨rfl, by decide⟩,
   gumball_winner_two_decrements { count := 2, state := .hasQuarter }
     rfl (by decide)⟩

/-- Claim C7: from a construction with inventory N > 1, inserting a
quarter and cranking with a forced non-winning draw decrements the
count by exactly 1 and leaves the machine in `NoQuarterState` if
gumballs remain, else `SoldOutState` (with N > 1 gumballs always
remain). -/
theorem gumball_nonwinner_single_decrement (n : Int) (hn : 1 < n)
    (draw : Nat) (hd : draw ≠ 0) :
    ((((GumballMachine.init n).insert_quarter).1).turn_crank draw).1.count
        = n - 1 ∧
    ((((GumballMachine.init n).insert_quarter).1).turn_crank draw).1.state
        = (if 0 < n - 1 then .noQuarter else .soldOut) := by
  have h0 : n > 0 := by omega
  simp only [GumballMachine.init, h0, if_true, GumballMachine.insert_quarter,
    GumballMachine.turn_crank, GumballMachine.turn_crank_state,
    GumballMachine.dispense, GumballMachine.release_ball, hd, false_and,
    if_false]
  split_ifs <;> simp_all <;> omega

theorem gumball_nonwinner_single_decrement_witness :
    1 < (3 : Int) ∧ (5 : Nat) ≠ 0 ∧
    (((((GumballMachine.init 3).insert_quarter).1).turn_crank 5).1.count
        = 3 - 1 ∧
      ((((GumballMachine.init 3).insert_quarter).1).turn_crank 5).1.state
        = (if 0 < (3 : Int) - 1 then .noQuarter else .soldOut)) :=
  ⟨by decide, by decide,
   gumball_nonwinner_single_decrement 3 (by decide) 5 (by decide)⟩

/-- Claim C9 counterexample: with the machine in the transient
`SoldState` (reachable externally, since `set_state` is a public
method) and inventory 2, `turn_crank` — an "invalid (busy)" call in
that state — does NOT leave the state and inventory unchanged: the
unconditionally chained dispense phase releases a ball and moves to
`NoQuarterState`. -/
theorem gumball_crank_in_sold_changes_state :
    (({ count := 2, state := .sold } : GumballMachine).turn_crank 5).1 =
      { count := 1, state := .noQuarter } ∧
    ({ count := 1, state := .noQuarter } : GumballMachine) ≠
      { count := 2, state := .sold } := by
  constructor <;> decide

/-- Claim C9 amended: every operation is total (never raises) in every
state; in the three resting states (`SoldOutState`, `NoQuarterState`,
`HasQuarterState`) — the only current states observable between public
calls — an invalid call leaves both state and count unchanged, the
only changes being the specified transitions; and `undo` on a fresh
registry never raises and produces no observable command effect. -/
theorem gumball_ops_safe_in_resting_states (m : GumballMachine)
    (draw : Nat)
    (hrest : m.state = .soldOut ∨ m.state = .noQuarter ∨
      m.state = .hasQuarter) :
    ((m.insert_quarter).1 =
      if m.state = .noQuarter then { m with state := .hasQuarter } else m) ∧
    ((m.eject_quarter).1 =
      if m.state = .hasQuarter then { m with state := .noQuarter } else m) ∧
    (m.state ≠ .hasQuarter → (m.turn_crank draw).1 = m) ∧
    (∀ k : Nat, RemoteControl.undo (RemoteControl.init k) =
      (RemoteControl.init k, [])) := by
  obtain ⟨c, s⟩ := m
  refine ⟨?_, ?_, ?_, fun k => rfl⟩
  · rcases hrest with h | h | h <;> simp only at h <;> subst h <;>
      simp [GumballMachine.insert_quarter]
  · rcases hrest with h | h | h <;> simp only at h <;> subst h <;>
      simp [GumballMachine.eject_quarter]
  · intro hne
    rcases hrest with h | h | h <;> simp only at h <;> subst h
    · simp [GumballMachine.turn_crank, GumballMachine.turn_crank_state,
        GumballMachine.dispense]
    · simp [GumballMachine.turn_crank, GumballMachine.turn_crank_state,
        GumballMachine.dispense]
    · exact absurd rfl hne

theorem gumball_ops_safe_in_resting_states_witness :
    (({ count := 5, state := .soldOut } : GumballMachine).state = .soldOut ∨
      ({ count := 5, state := .soldOut } : GumballMachine).state = .noQuarter ∨
      ({ count := 5, state := .soldOut } : GumballMachine).state = .hasQuarter) ∧
    ((({ count := 5, state := .soldOut } : GumballMachine).insert_quarter).1 =
      if ({ count := 5, state := .soldOut } : GumballMachine).state = .noQuarter
      then { ({ count := 5, state := .soldOut } : GumballMachine) with
              state := .hasQuarter }
      else { count := 5, state := .soldOut }) ∧
    ((({ count := 5, state := .soldOut } : GumballMachine).eject_quarter).1 =
      if ({ count := 5, state := .soldOut } : GumballMachine).state = .hasQuarter
      then { ({ count := 5, state := .soldOut } : GumballMachine) with
              state := .noQuarter }
      else { count := 5, state := .soldOut }) ∧
    ((({ count := 5, state := .soldOut } : GumballMachine).turn_crank 0).1 =
      { count := 5, state := .soldOut }) ∧
    RemoteControl.undo (RemoteControl.init 2) = (RemoteControl.init 2, []) :=
  ⟨Or.inl rfl,
   (gumball_ops_safe_in_resting_states { count := 5, state := .soldOut } 0
     (Or.inl rfl)).1,
   (gumball_ops_safe_in_resting_states { count := 5, state := .soldOut } 0
     (Or.inl rfl)).2.1,
   (gumball_ops_safe_in_resting_states { count := 5, state := .soldOut } 0
     (Or.inl rfl)).2.2.1 (by decide),
   (gumball_ops_safe_in_resting_states { count := 5, state := .soldOut } 0
     (Or.inl rfl)).2.2.2 2⟩

/-- Claim C8: a macro over [A, B] executes A then B, and its inverse
unexecutes A then B in the SAME list order (not reversed); a concrete
instance shows the two orders are distinguishable. -/
theorem macro_execute_unexecute_order (A B : AbsCommand) :
    execute (.macroCommand [A, B]) = execute A ++ execute B ∧
    unexecute (.macroCommand [A, B]) = unexecute A ++ unexecute B ∧
    unexecute (.macroCommand [AbsCommand.lightOn "a", AbsCommand.lightOn "b"]) ≠
      unexecute (AbsCommand.lightOn "b") ++ unexecute (AbsCommand.lightOn "a") := by
  refine ⟨?_, ?_, ?_⟩
  · simp [execute, executeList]
  · simp [unexecute, unexecuteList]
  · decide

/-- Claim C3 counterexample: on a one-slot registry whose slot 0 holds
`LightOnCommand`, `click_on(-1)` — an index outside [0, 1) — does NOT
raise: Python's negative indexing resolves it to slot 0, the bound
command executes, and `last_cmd` is updated to it. -/
theorem remote_negative_index_click_succeeds :
    RemoteControl.click_on
        { on_cmds := [.lightOn "a"], off_cmds := [.lightOff "a"],
          last_cmd := .nullCommand } (-1) =
      .ok ({ on_cmds := [.lightOn "a"], off_cmds := [.lightOff "a"],
             last_cmd := .lightOn "a" }, ["a light is on"]) ∧
    (AbsCommand.lightOn "a" = AbsCommand.nullCommand → False) := by
  constructor
  · rfl
  · intro h
    cases h

lemma pyIdx_nonneg (n : Nat) (i : Int) (h0 : 0 ≤ i)
    (h1 : i.toNat < n) : pyIdx n i = some i.toNat := by
  unfold pyIdx
  rw [if_pos h0, if_pos h1]

lemma pyIdx_neg (n : Nat) (i : Int) (h0 : ¬0 ≤ i) (h1 : 0 ≤ i + n) :
    pyIdx n i = some (i + n).toNat := by
  unfold pyIdx
  rw [if_neg h0, if_pos h1]

lemma pyGet_eq_ok {α : Type} (l : List α) (i : Int) (j : Nat)
    (hIdx : pyIdx l.length i = some j) (hj : j < l.length) :
    pyGet l i = .ok (l.get ⟨j, hj⟩) := by
  unfold pyGet
  rw [hIdx]
  simp [List.getElem?_eq_getElem hj, List.get_eq_getElem]

lemma pySet_eq_ok {α : Type} (l : List α) (i : Int) (j : Nat) (a : α)
    (hIdx : pyIdx l.length i = some j) :
    pySet l i a = .ok (l.set j a) := by
  unfold pySet
  rw [hIdx]

/-- Claim C3 amended: `set_command` with any index outside
[0, slotCount) raises `AssertionError` (its `assert` precedes any
mutation, so the registry is untouched); `click_on`/`click_off` raise
`IndexError` — before executing anything or touching `last_cmd` — only
for indices ≥ slotCount or < -slotCount; for a negative index in
[-slotCount, 0) they silently succeed, executing the command of slot
(index + slotCount) and setting `last_cmd` to it.  So two distinct
error kinds occur, and negative indices do not raise on the trigger
operations. -/
theorem remote_out_of_range_behavior :
    (∀ (rc : RemoteControl) (idx : Int) (on_cmd off_cmd : AbsCommand),
      ¬(0 ≤ idx ∧ idx < (rc.on_cmds.length : Int)) →
        rc.set_command idx on_cmd off_cmd = .error .assertionError) ∧
    (∀ (rc : RemoteControl) (idx : Int),
      (rc.on_cmds.length : Int) ≤ idx ∨ idx < -(rc.on_cmds.length : Int) →
        rc.click_on idx = .error .indexError) ∧
    (∀ (rc : RemoteControl) (idx : Int),
      (rc.off_cmds.length : Int) ≤ idx ∨ idx < -(rc.off_cmds.length : Int) →
        rc.click_off idx = .error .indexError) ∧
    (∀ (rc : RemoteControl) (idx : Int)
        (h1 : -(rc.on_cmds.length : Int) ≤ idx) (h2 : idx < 0),
      rc.click_on idx =
        .ok ({ rc with
                last_cmd := rc.on_cmds.get
                  ⟨(idx + rc.on_cmds.length).toNat, by omega⟩ },
             execute (rc.on_cmds.get
               ⟨(idx + rc.on_cmds.length).toNat, by omega⟩))) ∧
    (∀ (rc : RemoteControl) (idx : Int)
        (h1 : -(rc.off_cmds.length : Int) ≤ idx) (h2 : idx < 0),
      rc.click_off idx =
        .ok ({ rc with
                last_cmd := rc.off_cmds.get
                  ⟨(idx + rc.off_cmds.length).toNat, by omega⟩ },
             execute (rc.off_cmds.get
               ⟨(idx + rc.off_cmds.length).toNat, by omega⟩))) := by
  refine ⟨?_, ?_, ?_, ?_, ?_⟩
  · intro rc idx on_cmd off_cmd h
    unfold RemoteControl.set_command
    rw [if_neg h]
  · intro rc idx h
    simp only [RemoteControl.click_on, pyGet, pyIdx]
    split_ifs <;> first | rfl | (exfalso; omega)
  · intro rc idx h
    simp only [RemoteControl.click_off, pyGet, pyIdx]
    split_ifs <;> first | rfl | (exfalso; omega)
  · intro rc idx h1 h2
    have hj : (idx + rc.on_cmds.length).toNat < rc.on_cmds.length := by
      omega
    have hIdx := pyIdx_neg rc.on_cmds.length idx (by omega) (by omega)
    have hget := pyGet_eq_ok rc.on_cmds idx _ hIdx hj
    unfold RemoteControl.click_on
    simp only [hget]
  · intro rc idx h1 h2
    have hj : (idx + rc.off_cmds.length).toNat < rc.off_cmds.length := by
      omega
    have hIdx := pyIdx_neg rc.off_cmds.length idx (by omega) (by omega)
    have hget := pyGet_eq_ok rc.off_cmds idx _ hIdx hj
    unfold RemoteControl.click_off
    simp only [hget]

theorem remote_out_of_range_behavior_witness :
    ¬(0 ≤ (5 : Int) ∧
        (5 : Int) < ((RemoteControl.init 1).on_cmds.length : Int)) ∧
    (RemoteControl.init 1).set_command 5 .nullCommand .nullCommand =
      .error .assertionError ∧
    (RemoteControl.init 1).click_on 5 = .error .indexError ∧
    (RemoteControl.init 1).click_off (-2) = .error .indexError ∧
    (RemoteControl.init 1).click_on (-1) =
      .ok ({ RemoteControl.init 1 with
              last_cmd := (RemoteControl.init 1).on_cmds.get
                ⟨((-1 : Int) +
                    (RemoteControl.init 1).on_cmds.length).toNat,
                 by decide⟩ },
           execute ((RemoteControl.init 1).on_cmds.get
             ⟨((-1 : Int) +
                 (RemoteControl.init 1).on_cmds.length).toNat,
              by decide⟩)) ∧
    (RemoteControl.init 1).click_off (-1) =
      .ok ({ RemoteControl.init 1 with
              last_cmd := (RemoteControl.init 1).off_cmds.get
                ⟨((-1 : Int) +
                    (RemoteControl.init 1).off_cmds.length).toNat,
                 by decide⟩ },
           execute ((RemoteControl.init 1).off_cmds.get
             ⟨((-1 : Int) +
                 (RemoteControl.init 1).off_cmds.length).toNat,
              by decide⟩)) :=
  ⟨by decide,
   remote_out_of_range_behavior.1 (RemoteControl.init 1) 5
     .nullCommand .nullCommand (by decide),
   remote_out_of_range_behavior.2.1 (RemoteControl.init 1) 5 (by decide),
   remote_out_of_range_behavior.2.2.1 (RemoteControl.init 1) (-2)
     (by decide),
   remote_out_of_range_behavior.2.2.2.1 (RemoteControl.init 1) (-1)
     (by decide) (by decide),
   remote_out_of_range_behavior.2.2.2.2 (RemoteControl.init 1) (-1)
     (by decide) (by decide)⟩

lemma click_on_ok_trace (rcX : RemoteControl) (idxX : Int)
    (rcY : RemoteControl) (tr : List String)
    (h : rcX.click_on idxX = .ok (rcY, tr)) :
    tr = execute rcY.last_cmd ∧
    rcY.undo = (rcY, unexecute rcY.last_cmd) := by
  unfold RemoteControl.click_on at h
  cases hget : pyGet rcX.on_cmds idxX with
  | error e => rw [hget] at h; simp at h
  | ok cmd =>
    rw [hget] at h
    simp only [Except.ok.injEq, Prod.mk.injEq] at h
    obtain ⟨hY, hT⟩ := h
    subst hY
    subst hT
    exact ⟨rfl, rfl⟩

lemma click_off_ok_trace (rcX : RemoteControl) (idxX : Int)
    (rcY : RemoteControl) (tr : List String)
    (h : rcX.click_off idxX = .ok (rcY, tr)) :
    tr = execute rcY.last_cmd ∧
    rcY.undo = (rcY, unexecute rcY.last_cmd) := by
  unfold RemoteControl.click_off at h
  cases hget : pyGet rcX.off_cmds idxX with
  | error e => rw [hget] at h; simp at h
  | ok cmd =>
    rw [hget] at h
    simp only [Except.ok.injEq, Prod.mk.injEq] at h
    obtain ⟨hY, hT⟩ := h
    subst hY
    subst hT
    exact ⟨rfl, rfl⟩

/-- Claim C1: for any valid slot index i, after `set_command(i, A, D)`,
`click_on(i)` executes exactly A (its trace is A's trace) and records A
as `last_cmd`, and a subsequent `undo` unexecutes exactly A; moreover
after ANY successful trigger, the trace just produced is exactly the
recorded `last_cmd`'s trace and `undo` unexecutes exactly that
command. -/
theorem remote_bind_trigger_undo (rc : RemoteControl) (i : Int)
    (A D : AbsCommand) (h0 : 0 ≤ i)
    (h1 : i.toNat < rc.on_cmds.length)
    (h2 : i.toNat < rc.off_cmds.length) :
    rc.set_command i A D =
      .ok { rc with on_cmds := rc.on_cmds.set i.toNat A,
                    off_cmds := rc.off_cmds.set i.toNat D } ∧
    RemoteControl.click_on
        { rc with on_cmds := rc.on_cmds.set i.toNat A,
                  off_cmds := rc.off_cmds.set i.toNat D } i =
      .ok ({ rc with on_cmds := rc.on_cmds.set i.toNat A,
                     off_cmds := rc.off_cmds.set i.toNat D,
                     last_cmd := A }, execute A) ∧
    RemoteControl.undo
        { rc with on_cmds := rc.on_cmds.set i.toNat A,
                  off_cmds := rc.off_cmds.set i.toNat D,
                  last_cmd := A } =
      ({ rc with on_cmds := rc.on_cmds.set i.toNat A,
                 off_cmds := rc.off_cmds.set i.toNat D,
                 last_cmd := A }, unexecute A) ∧
    (∀ (rcX : RemoteControl) (idxX : Int) (rcY : RemoteControl)
        (tr : List String),
      rcX.click_on idxX = .ok (rcY, tr) ∨
        rcX.click_off idxX = .ok (rcY, tr) →
          tr = execute rcY.last_cmd ∧
          rcY.undo = (rcY, unexecute rcY.last_cmd)) := by
  refine ⟨?_, ?_, rfl, ?_⟩
  · unfold RemoteControl.set_command
    rw [if_pos ⟨h0, by omega⟩]
    simp only [pySet_eq_ok rc.on_cmds i i.toNat A (pyIdx_nonneg _ _ h0 h1),
      pySet_eq_ok rc.off_cmds i i.toNat D (pyIdx_nonneg _ _ h0 h2)]
  · have hIdx : pyIdx (rc.on_cmds.set i.toNat A).length i
        = some i.toNat := by
      rw [List.length_set]
      exact pyIdx_nonneg _ _ h0 h1
    have hget : pyGet (rc.on_cmds.set i.toNat A) i = .ok A := by
      unfold pyGet
      simp only [hIdx, List.getElem?_set_eq_of_lt A h1]
    unfold RemoteControl.click_on
    simp only [hget]
  · intro rcX idxX rcY tr h
    rcases h with h | h
    · exact click_on_ok_trace rcX idxX rcY tr h
    · exact click_off_ok_trace rcX idxX rcY tr h

theorem remote_bind_trigger_undo_witness :
    0 ≤ (0 : Int) ∧
    (0 : Int).toNat < (RemoteControl.init 1).on_cmds.length ∧
    (0 : Int).toNat < (RemoteControl.init 1).off_cmds.length ∧
    (RemoteControl.init 1).set_command 0 (.lightOn "L") (.lightOff "L") =
      .ok { RemoteControl.init 1 with
              on_cmds :=
                (RemoteControl.init 1).on_cmds.set (0 : Int).toNat
                  (.lightOn "L"),
              off_cmds :=
                (RemoteControl.init 1).off_cmds.set (0 : Int).toNat
                  (.lightOff "L") } :=
  ⟨by decide, by decide, by decide,
   (remote_bind_trigger_undo (RemoteControl.init 1) 0 (.lightOn "L")
      (.lightOff "L") (by decide) (by decide) (by decide)).1⟩
